import Mathlib

/-!
# Service Bus management sample (`example.go`)

A shallow embedding of the Go program `example.go`: a start-up sequence
(`init`) that reads four environment variables and acquires a service-principal
token, followed by `main`, a fixed script of eight calls to the Azure management
SDK with a prompt before the final resource-group deletion.

Everything the program does to the outside world is recorded, in program order,
in a trace of `Event`s: text written to standard output, token-acquisition
steps, calls on the five SDK clients and the read of one line of standard input.
The outside world itself (environment, SDK answers, standard input) is a
`World`, over which the theorems quantify.
-/

namespace ServiceBusSample

/-! ## Values exchanged with the SDK -/

/-- The `azure.OAuthConfig` value built by `OAuthConfigForTenant`; its contents are
never inspected by the program. -/
structure OAuthConfig where
  handle : String
  deriving DecidableEq, Repr

/-- The `azure.ServicePrincipalToken` built by `NewServicePrincipalToken`; its
contents are never inspected by the program. -/
structure ServicePrincipalToken where
  handle : String
  deriving DecidableEq, Repr

/-- An SDK client as the program uses it: the subscription it was created for and
the `Authorizer` assigned to it. A pointer-typed authorizer is `Option`. -/
structure Client where
  SubscriptionID : String
  Authorizer : Option ServicePrincipalToken
  deriving DecidableEq, Repr

/-- The five package-level client variables. -/
structure Clients where
  groupsClient : Client
  namespaceClient : Client
  queuesClient : Client
  topicsClient : Client
  subClient : Client
  deriving DecidableEq, Repr

/-- The `resources.Group` fields the program fills in. -/
structure Group where
  Location : Option String
  deriving DecidableEq, Repr

/-- The `servicebus.SkuTier` constants. -/
inductive SkuTier where
  | SkuTierBasic | SkuTierPremium | SkuTierStandard
  deriving DecidableEq, Repr

/-- The `servicebus.SkuName` constants. -/
inductive SkuName where
  | Basic | Premium | Standard
  deriving DecidableEq, Repr

/-- The `servicebus.Sku` fields the program fills in. -/
structure Sku where
  Tier : SkuTier
  Name : SkuName
  deriving DecidableEq, Repr

/-- The `servicebus.NamespaceCreateOrUpdateParameters` fields the program fills in. -/
structure NamespaceCreateOrUpdateParameters where
  Location : Option String
  Sku : Option Sku
  deriving DecidableEq, Repr

/-- The `servicebus.AccessRights` constants. -/
inductive AccessRights where
  | Listen | Manage | Send
  deriving DecidableEq, Repr

/-- The rights carried by `SharedAccessAuthorizationRuleCreateOrUpdateParameters`
(through its `SharedAccessAuthorizationRuleProperties` pointer). -/
structure SharedAccessAuthorizationRuleCreateOrUpdateParameters where
  Rights : Option (List AccessRights)
  deriving DecidableEq, Repr

/-- The `servicebus.QueueCreateOrUpdateParameters` fields the program fills in. -/
structure QueueCreateOrUpdateParameters where
  Location : Option String
  EnablePartitioning : Option Bool
  deriving DecidableEq, Repr

/-- The `servicebus.TopicCreateOrUpdateParameters` fields the program fills in. -/
structure TopicCreateOrUpdateParameters where
  Location : Option String
  EnablePartitioning : Option Bool
  deriving DecidableEq, Repr

/-- The `servicebus.SubscriptionCreateOrUpdateParameters` fields the program fills in. -/
structure SubscriptionCreateOrUpdateParameters where
  Location : Option String
  deriving DecidableEq, Repr

/-- The `servicebus.ResourceListKeys` fields the program reads. Each is a `*string`
in Go, so each may be nil. -/
structure ResourceListKeys where
  KeyName : Option String
  PrimaryKey : Option String
  SecondaryKey : Option String
  PrimaryConnectionString : Option String
  SecondaryConnectionString : Option String
  deriving DecidableEq, Repr

/-- A call on one of the five clients, with the receiver and the arguments the
program passes (the `nil` cancel channels are left out). -/
inductive RemoteCall where
  | GroupsCreateOrUpdate (client : Client) (resourceGroupName : String) (parameters : Group)
  | NamespacesCreateOrUpdate (client : Client) (resourceGroupName namespaceName : String)
      (parameters : NamespaceCreateOrUpdateParameters)
  | NamespacesCreateOrUpdateAuthorizationRule (client : Client)
      (resourceGroupName namespaceName authorizationRuleName : String)
      (parameters : SharedAccessAuthorizationRuleCreateOrUpdateParameters)
  | NamespacesListKeys (client : Client)
      (resourceGroupName namespaceName authorizationRuleName : String)
  | QueuesCreateOrUpdate (client : Client) (resourceGroupName namespaceName queueName : String)
      (parameters : QueueCreateOrUpdateParameters)
  | TopicsCreateOrUpdate (client : Client) (resourceGroupName namespaceName topicName : String)
      (parameters : TopicCreateOrUpdateParameters)
  | SubscriptionsCreateOrUpdate (client : Client)
      (resourceGroupName namespaceName topicName subscriptionName : String)
      (parameters : SubscriptionCreateOrUpdateParameters)
  | GroupsDelete (client : Client) (resourceGroupName : String)
  deriving DecidableEq, Repr

/-! ## The outside world and the trace -/

/-- Everything the program receives from outside. An `error` is `Option String`:
`none` is Go's `nil`, `some e` an error whose text is `e`. -/
structure World where
  /-- The process environment: `none` for a variable that is not defined. -/
  environ : String → Option String
  /-- The pair `(*OAuthConfig, error)` returned by `azure.PublicCloud.OAuthConfigForTenant`. -/
  OAuthConfigForTenant : String → Option OAuthConfig × Option String
  /-- The constant `azure.PublicCloud.ResourceManagerEndpoint`. -/
  ResourceManagerEndpoint : String
  /-- The pair `(*ServicePrincipalToken, error)` returned by `azure.NewServicePrincipalToken`. -/
  NewServicePrincipalToken :
    OAuthConfig → String → String → String → Option ServicePrincipalToken × Option String
  /-- The error returned by a client call whose value the program discards. -/
  respond : RemoteCall → Option String
  /-- The pair `(ResourceListKeys, error)` returned by `NamespacesClient.ListKeys`. -/
  ListKeys : Client → String → String → String → ResourceListKeys × Option String
  /-- The line waiting on standard input: `none` at end of input. -/
  stdin : Option String

/-- One observable action of the process. -/
inductive Event where
  | print (text : String)
  | OAuthConfigForTenant (tenantID : String) (err : Option String)
  | NewServicePrincipalToken (config : OAuthConfig) (clientID secret resource : String)
      (err : Option String)
  | call (c : RemoteCall) (err : Option String)
  | Scanln (line : Option String)
  deriving DecidableEq, Repr

/-- How a Go process stops before `main` returns: `os.Exit(code)`, or the run-time
panic of reading through a nil pointer. -/
inductive Halt where
  | exit (code : Nat)
  | nilDereference
  deriving DecidableEq, Repr

/-- A piece of program run: the events it produced, and either its value or the
reason the process stopped inside it. -/
structure Run (α : Type) where
  trace : List Event
  result : Except Halt α

/-- Sequencing: the second piece runs only if the first one returned. -/
def Run.bind {α β : Type} (r : Run α) (f : α → Run β) : Run β :=
  match r.result with
  | .ok a => ⟨r.trace ++ (f a).trace, (f a).result⟩
  | .error h => ⟨r.trace, .error h⟩

instance : Monad Run where
  pure a := ⟨[], .ok a⟩
  bind := Run.bind

/-- Record one event. -/
def emit (e : Event) : Run Unit := ⟨[e], .ok ()⟩

/-- Write `text` to standard output (`fmt.Printf` with the format already filled in,
or `fmt.Print`). -/
def Printf (text : String) : Run Unit := emit (.print text)

/-- Call `os.Exit`. -/
def osExit {α : Type} (code : Nat) : Run α := ⟨[], .error (.exit code)⟩

/-- Read through a pointer: `*p`. -/
def deref {α : Type} : Option α → Run α
  | some a => ⟨[], .ok a⟩
  | none => ⟨[], .error .nilDereference⟩

/-- Read an environment variable: `os.Getenv`, which gives the empty string for a
variable that is not defined. -/
def Getenv (w : World) (key : String) : String :=
  (w.environ key).getD ""

/-- Issue a client call whose returned value is discarded, giving its error. -/
def invoke (w : World) (c : RemoteCall) : Run (Option String) :=
  ⟨[.call c (w.respond c)], .ok (w.respond c)⟩

/-! ## The program -/

def location : String := "westus"
def resourceGroupName : String := "azure-sample"
def namespaceName : String := "golangrocksonazure"
def authRuleName : String := "authrule"
def queueName : String := "queue1"
def topicName : String := "topic1"
def subscriptionName : String := "sub1"

/-- The Go function `getEnvVarOrExit`. -/
def getEnvVarOrExit (w : World) (varName : String) : Run String := do
  let value := Getenv w varName
  if value = "" then
    Printf ("Missing environment variable " ++ varName ++ "\n")
    osExit 1
  return value

/-- The Go function `onErrorFail`. -/
def onErrorFail (err : Option String) (message : String) : Run Unit :=
  match err with
  | some e => do
    Printf (message ++ ": " ++ e ++ "\n")
    osExit 1
  | none => pure ()

/-- The Go function `createClients`. -/
def createClients (subID : String) (token : Option ServicePrincipalToken) : Clients :=
  { groupsClient := ⟨subID, token⟩
    namespaceClient := ⟨subID, token⟩
    queuesClient := ⟨subID, token⟩
    topicsClient := ⟨subID, token⟩
    subClient := ⟨subID, token⟩ }

/-- The Go function `init`; the clients it stores in package variables are its value. -/
def init (w : World) : Run Clients := do
  let subscriptionID ← getEnvVarOrExit w "AZURE_SUBSCRIPTION_ID"
  let tenantID ← getEnvVarOrExit w "AZURE_TENANT_ID"
  let (oauthConfig, err) := w.OAuthConfigForTenant tenantID
  emit (.OAuthConfigForTenant tenantID err)
  onErrorFail err "OAuthConfigForTenant failed"
  let clientID ← getEnvVarOrExit w "AZURE_CLIENT_ID"
  let clientSecret ← getEnvVarOrExit w "AZURE_CLIENT_SECRET"
  let config ← deref oauthConfig
  let (spToken, err) :=
    w.NewServicePrincipalToken config clientID clientSecret w.ResourceManagerEndpoint
  emit (.NewServicePrincipalToken config clientID clientSecret w.ResourceManagerEndpoint err)
  onErrorFail err "NewServicePrincipalToken failed"
  return createClients subscriptionID spToken

/-- The Go function `createResourceGroup`. -/
def createResourceGroup (w : World) (cl : Clients) : Run Unit := do
  Printf ("Creating resource group '" ++ resourceGroupName ++ "'...\n")
  let groupParams : Group := { Location := some location }
  let err ← invoke w (.GroupsCreateOrUpdate cl.groupsClient resourceGroupName groupParams)
  onErrorFail err "Group create failed"

/-- The Go function `createNamespace`. -/
def createNamespace (w : World) (cl : Clients) : Run Unit := do
  Printf ("Creating namespace '" ++ namespaceName ++ "'...\n")
  let namespaceParams : NamespaceCreateOrUpdateParameters :=
    { Location := some location
      Sku := some { Tier := .SkuTierStandard, Name := .Standard } }
  let err ← invoke w
    (.NamespacesCreateOrUpdate cl.namespaceClient resourceGroupName namespaceName namespaceParams)
  onErrorFail err "Namespace create failed"

/-- The Go function `createAuthRule`. -/
def createAuthRule (w : World) (cl : Clients) : Run Unit := do
  Printf ("Creating authorization rule '" ++ authRuleName ++ "' for namespace '"
    ++ namespaceName ++ "'...\n")
  let ruleParams : SharedAccessAuthorizationRuleCreateOrUpdateParameters :=
    { Rights := some [.Listen, .Manage, .Send] }
  let err ← invoke w
    (.NamespacesCreateOrUpdateAuthorizationRule cl.namespaceClient resourceGroupName
      namespaceName authRuleName ruleParams)
  onErrorFail err "Authorization rule create failed"

/-- The Go function `listKeys`. Each `*keys.Field` is read before the line that
shows it is written. -/
def listKeys (w : World) (cl : Clients) : Run Unit := do
  Printf ("List keys for '" ++ namespaceName ++ "' namespace...\n")
  let (keys, err) := w.ListKeys cl.namespaceClient resourceGroupName namespaceName authRuleName
  emit (.call (.NamespacesListKeys cl.namespaceClient resourceGroupName namespaceName
    authRuleName) err)
  onErrorFail err "List keys failed"
  let keyName ← deref keys.KeyName
  Printf ("\tKey name: " ++ keyName ++ "\n")
  let primaryKey ← deref keys.PrimaryKey
  Printf ("\tPrimary key: " ++ primaryKey ++ "\n")
  let secondaryKey ← deref keys.SecondaryKey
  Printf ("\tSecondary key: " ++ secondaryKey ++ "\n")
  let primaryConnectionString ← deref keys.PrimaryConnectionString
  Printf ("\tPrimary connection string: " ++ primaryConnectionString ++ "\n")
  let secondaryConnectionString ← deref keys.SecondaryConnectionString
  Printf ("\tSecondary connection string: " ++ secondaryConnectionString ++ "\n")

/-- The Go function `createQueue`. -/
def createQueue (w : World) (cl : Clients) : Run Unit := do
  Printf ("Creating queue '" ++ queueName ++ "'...\n")
  let queueParams : QueueCreateOrUpdateParameters :=
    { Location := some location, EnablePartitioning := some true }
  let err ← invoke w
    (.QueuesCreateOrUpdate cl.queuesClient resourceGroupName namespaceName queueName queueParams)
  onErrorFail err "Queue create failed"

/-- The Go function `createTopic`. -/
def createTopic (w : World) (cl : Clients) : Run Unit := do
  Printf ("Creating topic '" ++ topicName ++ "'...\n")
  let topicsParams : TopicCreateOrUpdateParameters :=
    { Location := some location, EnablePartitioning := some true }
  let err ← invoke w
    (.TopicsCreateOrUpdate cl.topicsClient resourceGroupName namespaceName topicName topicsParams)
  onErrorFail err "Topic create failed"

/-- The Go function `createSubscription`. -/
def createSubscription (w : World) (cl : Clients) : Run Unit := do
  Printf ("Creating subscription '" ++ subscriptionName ++ "'...\n")
  let subParams : SubscriptionCreateOrUpdateParameters := { Location := some location }
  let err ← invoke w
    (.SubscriptionsCreateOrUpdate cl.subClient resourceGroupName namespaceName topicName
      subscriptionName subParams)
  onErrorFail err "Subscription create failed"

/-- The Go function `deleteResourceGroup`. -/
def deleteResourceGroup (w : World) (cl : Clients) : Run Unit := do
  Printf ("Deleting resource group '" ++ resourceGroupName ++ "'...\n")
  let err ← invoke w (.GroupsDelete cl.groupsClient resourceGroupName)
  onErrorFail err "Group delete failed"

/-- The Go function `main`. The value and error of `fmt.Scanln` are discarded. -/
def main (w : World) (cl : Clients) : Run Unit := do
  createResourceGroup w cl
  createNamespace w cl
  createAuthRule w cl
  listKeys w cl
  createQueue w cl
  createTopic w cl
  createSubscription w cl
  Printf "Press enter to delete all the resources created in this sample..."
  emit (.Scanln w.stdin)
  deleteResourceGroup w cl

/-- How a process ended: with an exit status, or with a run-time fault. -/
inductive Status where
  | exited (code : Nat)
  | faulted
  deriving DecidableEq, Repr

/-- The end of a process whose last piece is `r`: returning from `main` is exit
status 0. -/
def Run.status {α : Type} (r : Run α) : Status :=
  match r.result with
  | .ok _ => .exited 0
  | .error (.exit code) => .exited code
  | .error .nilDereference => .faulted

/-- The whole process: `init`, then `main`. -/
def process (w : World) : Run Unit := do
  let cl ← init w
  main w cl

/-! ## Reading a trace -/

/-- The eight steps of the script, named as in the specification. -/
inductive Step where
  | groupCreate | namespaceCreate | authruleCreate | keysList
  | queueCreate | topicCreate | subscriptionCreate | groupDelete
  deriving DecidableEq, Repr

/-- The step a client call belongs to. -/
def RemoteCall.step : RemoteCall → Step
  | .GroupsCreateOrUpdate .. => .groupCreate
  | .NamespacesCreateOrUpdate .. => .namespaceCreate
  | .NamespacesCreateOrUpdateAuthorizationRule .. => .authruleCreate
  | .NamespacesListKeys .. => .keysList
  | .QueuesCreateOrUpdate .. => .queueCreate
  | .TopicsCreateOrUpdate .. => .topicCreate
  | .SubscriptionsCreateOrUpdate .. => .subscriptionCreate
  | .GroupsDelete .. => .groupDelete

/-- The fixed order of the steps. -/
def fixedSequence : List Step :=
  [.groupCreate, .namespaceCreate, .authruleCreate, .keysList,
   .queueCreate, .topicCreate, .subscriptionCreate, .groupDelete]

/-- The Go function that carries out a step. -/
def Step.run : Step → World → Clients → Run Unit
  | .groupCreate => createResourceGroup
  | .namespaceCreate => createNamespace
  | .authruleCreate => createAuthRule
  | .keysList => listKeys
  | .queueCreate => createQueue
  | .topicCreate => createTopic
  | .subscriptionCreate => createSubscription
  | .groupDelete => deleteResourceGroup

/-- The message each step hands to `onErrorFail`. -/
def Step.failureMessage : Step → String
  | .groupCreate => "Group create failed"
  | .namespaceCreate => "Namespace create failed"
  | .authruleCreate => "Authorization rule create failed"
  | .keysList => "List keys failed"
  | .queueCreate => "Queue create failed"
  | .topicCreate => "Topic create failed"
  | .subscriptionCreate => "Subscription create failed"
  | .groupDelete => "Group delete failed"

/-- The resource a client call acts on: the last, most specific name among its
arguments (the group for the two group calls, the rule for the two rule calls). -/
def RemoteCall.target : RemoteCall → String
  | .GroupsCreateOrUpdate _ resourceGroupName _ => resourceGroupName
  | .NamespacesCreateOrUpdate _ _ namespaceName _ => namespaceName
  | .NamespacesCreateOrUpdateAuthorizationRule _ _ _ authorizationRuleName _ =>
    authorizationRuleName
  | .NamespacesListKeys _ _ _ authorizationRuleName => authorizationRuleName
  | .QueuesCreateOrUpdate _ _ _ queueName _ => queueName
  | .TopicsCreateOrUpdate _ _ _ topicName _ => topicName
  | .SubscriptionsCreateOrUpdate _ _ _ _ subscriptionName _ => subscriptionName
  | .GroupsDelete _ resourceGroupName => resourceGroupName

/-- The text `line` contains `name`: the characters of `name` occur in `line`, in
order and without gap. -/
def mentions (line name : String) : Prop :=
  name.data <:+: line.data

instance (line name : String) : Decidable (mentions line name) :=
  inferInstanceAs (Decidable (name.data <:+: line.data))

/-- The line `onErrorFail` writes for an error whose text is `e`. -/
def failureLine (message e : String) : String :=
  message ++ ": " ++ e ++ "\n"

/-- The line `getEnvVarOrExit` writes for a missing variable. -/
def missingLine (varName : String) : String :=
  "Missing environment variable " ++ varName ++ "\n"

/-- The error a client call returns in world `w`. -/
def World.answer (w : World) : RemoteCall → Option String
  | .NamespacesListKeys client rg ns rule => (w.ListKeys client rg ns rule).2
  | c => w.respond c

/-- Is the event a client call? -/
def Event.isCall : Event → Bool
  | .call .. => true
  | _ => false

/-- Is the event an invocation of `OAuthConfigForTenant`? -/
def Event.isOAuthConfigForTenant : Event → Bool
  | .OAuthConfigForTenant .. => true
  | _ => false

/-- Is the event an invocation of `NewServicePrincipalToken`? -/
def Event.isNewServicePrincipalToken : Event → Bool
  | .NewServicePrincipalToken .. => true
  | _ => false

/-- The client calls of a trace, in order, each with the error it returned. -/
def calls : List Event → List (RemoteCall × Option String)
  | [] => []
  | .call c err :: es => (c, err) :: calls es
  | _ :: es => calls es

/-- The texts written to standard output, in order, one entry per write. -/
def outputs : List Event → List String
  | [] => []
  | .print text :: es => text :: outputs es
  | _ :: es => outputs es

/-- The steps of the client calls of a trace, in order. -/
def steps (t : List Event) : List Step :=
  (calls t).map fun c => c.1.step

/-- The steps of the client calls of a trace, each with whether it succeeded. -/
def callResults (t : List Event) : List (Step × Bool) :=
  (calls t).map fun c => (c.1.step, c.2.isNone)

/-- The four required variables, in the order `init` reads them. -/
def requiredVariables : List String :=
  ["AZURE_SUBSCRIPTION_ID", "AZURE_TENANT_ID", "AZURE_CLIENT_ID", "AZURE_CLIENT_SECRET"]

/-- The call results of a run whose first `n` steps all succeeded and that issued
no further call. -/
def okRun (n : Nat) : List (Step × Bool) :=
  (fixedSequence.take n).map fun s => (s, true)

/-- The call results of a run whose first `n` steps succeeded and whose next step
failed. -/
def failedRun (n : Nat) : List (Step × Bool) :=
  okRun n ++ ((fixedSequence.drop n).take 1).map fun s => (s, false)

/-- Every list of call results the script can produce. -/
def scriptRuns : List (List (Step × Bool)) :=
  (List.range 9).map okRun ++ (List.range 8).map failedRun

/-- The prompt `main` writes before reading standard input. -/
def promptText : String :=
  "Press enter to delete all the resources created in this sample..."

/-! ## Concrete worlds -/

/-- An environment that defines the four required variables. -/
def fullEnviron (key : String) : Option String :=
  if key = "AZURE_SUBSCRIPTION_ID" then some "sub-1"
  else if key = "AZURE_TENANT_ID" then some "tenant-1"
  else if key = "AZURE_CLIENT_ID" then some "client-1"
  else if key = "AZURE_CLIENT_SECRET" then some "secret-1"
  else none

/-- A keys-list response with all five fields present. -/
def fullKeys : ResourceListKeys :=
  { KeyName := some "k1"
    PrimaryKey := some "p1"
    SecondaryKey := some "s1"
    PrimaryConnectionString := some "pc1"
    SecondaryConnectionString := some "sc1" }

/-- A world in which every variable is set and every collaborator succeeds, with
an empty line on standard input. -/
def stubWorld : World where
  environ := fullEnviron
  OAuthConfigForTenant := fun tenantID => (some ⟨tenantID⟩, none)
  ResourceManagerEndpoint := "https://management.azure.com/"
  NewServicePrincipalToken := fun _ clientID _ _ => (some ⟨clientID⟩, none)
  respond := fun _ => none
  ListKeys := fun _ _ _ _ => (fullKeys, none)
  stdin := some ""

/-- The clients `init` builds in `stubWorld`. -/
def stubClients : Clients :=
  createClients "sub-1" (some ⟨"client-1"⟩)

/-- As `stubWorld`, but the successful keys-list response carries none of the five
fields. -/
def absentKeysWorld : World :=
  { stubWorld with ListKeys := fun _ _ _ _ => (⟨none, none, none, none, none⟩, none) }

/-- As `stubWorld`, but the successful keys-list response is the stub of the
specification: key name, primary key and secondary key only. -/
def threeKeysWorld : World :=
  { stubWorld with ListKeys := fun _ _ _ _ => (⟨some "k1", some "p1", some "s1", none, none⟩, none) }

/-- As `stubWorld`, but the successful keys-list response lacks the key name and
carries the four other fields. -/
def noKeyNameWorld : World :=
  { stubWorld with
    ListKeys := fun _ _ _ _ => (⟨none, some "p1", some "s1", some "pc1", some "sc1"⟩, none) }

/-- As `stubWorld`, but `AZURE_CLIENT_ID` is not defined. -/
def noClientIDWorld : World :=
  { stubWorld with environ := fun key => if key = "AZURE_CLIENT_ID" then none else fullEnviron key }

/-- As `stubWorld`, but neither `AZURE_SUBSCRIPTION_ID` nor `AZURE_TENANT_ID` is defined. -/
def noTenantNoSubscriptionWorld : World :=
  { stubWorld with
    environ := fun key =>
      if key = "AZURE_SUBSCRIPTION_ID" then none
      else if key = "AZURE_TENANT_ID" then none
      else fullEnviron key }

/-- As `stubWorld`, but the namespace create call returns the error `conflict`. -/
def namespaceConflictWorld : World :=
  { stubWorld with
    respond := fun c => if c.step = .namespaceCreate then some "conflict" else none }

/-- As `stubWorld`, but `NewServicePrincipalToken` returns the error `invalid_client`. -/
def invalidCredentialsWorld : World :=
  { stubWorld with NewServicePrincipalToken := fun _ _ _ _ => (none, some "invalid_client") }

/-! ## Normal forms of the program pieces -/

theorem pure_eq {α : Type} (a : α) : (pure a : Run α) = ⟨[], .ok a⟩ := rfl

theorem bind_ok {α β : Type} (t : List Event) (a : α) (f : α → Run β) :
    (Run.mk t (.ok a) >>= f) = ⟨t ++ (f a).trace, (f a).result⟩ := rfl

theorem bind_error {α β : Type} (t : List Event) (h : Halt) (f : α → Run β) :
    (Run.mk t (.error h) >>= f) = ⟨t, .error h⟩ := rfl

theorem onErrorFail_none (m : String) : onErrorFail none m = ⟨[], .ok ()⟩ := rfl

theorem onErrorFail_some (e m : String) :
    onErrorFail (some e) m = ⟨[.print (failureLine m e)], .error (.exit 1)⟩ := rfl

theorem getEnvVarOrExit_eq (w : World) (varName : String) :
    getEnvVarOrExit w varName =
      if Getenv w varName = "" then ⟨[.print (missingLine varName)], .error (.exit 1)⟩
      else ⟨[], .ok (Getenv w varName)⟩ := by
  unfold getEnvVarOrExit
  by_cases h : Getenv w varName = "" <;>
    simp [h, Printf, emit, osExit, bind_ok, bind_error, pure_eq, missingLine]

/-- A progress line, one client call, `onErrorFail`: the shape shared by seven steps. -/
theorem step_eq (w : World) (p m : String) (c : RemoteCall) :
    (do Printf p; let err ← invoke w c; onErrorFail err m : Run Unit) =
      match w.respond c with
      | none => ⟨[.print p, .call c none], .ok ()⟩
      | some e => ⟨[.print p, .call c (some e), .print (failureLine m e)], .error (.exit 1)⟩ := by
  cases h : w.respond c <;>
    simp [Printf, emit, invoke, onErrorFail_none, onErrorFail_some, h, bind_ok, bind_error]

theorem createResourceGroup_eq (w : World) (cl : Clients) :
    createResourceGroup w cl =
      match w.respond (.GroupsCreateOrUpdate cl.groupsClient resourceGroupName ⟨some location⟩) with
      | none => ⟨[.print ("Creating resource group '" ++ resourceGroupName ++ "'...\n"),
          .call (.GroupsCreateOrUpdate cl.groupsClient resourceGroupName ⟨some location⟩) none], .ok ()⟩
      | some e => ⟨[.print ("Creating resource group '" ++ resourceGroupName ++ "'...\n"),
          .call (.GroupsCreateOrUpdate cl.groupsClient resourceGroupName ⟨some location⟩) (some e),
          .print (failureLine "Group create failed" e)], .error (.exit 1)⟩ :=
  step_eq w _ _ _

theorem createNamespace_eq (w : World) (cl : Clients) :
    createNamespace w cl =
      match w.respond (.NamespacesCreateOrUpdate cl.namespaceClient resourceGroupName namespaceName
        ⟨some location, some ⟨.SkuTierStandard, .Standard⟩⟩) with
      | none => ⟨[.print ("Creating namespace '" ++ namespaceName ++ "'...\n"),
          .call (.NamespacesCreateOrUpdate cl.namespaceClient resourceGroupName namespaceName
        ⟨some location, some ⟨.SkuTierStandard, .Standard⟩⟩) none], .ok ()⟩
      | some e => ⟨[.print ("Creating namespace '" ++ namespaceName ++ "'...\n"),
          .call (.NamespacesCreateOrUpdate cl.namespaceClient resourceGroupName namespaceName
        ⟨some location, some ⟨.SkuTierStandard, .Standard⟩⟩) (some e),
          .print (failureLine "Namespace create failed" e)], .error (.exit 1)⟩ :=
  step_eq w _ _ _

theorem createAuthRule_eq (w : World) (cl : Clients) :
    createAuthRule w cl =
      match w.respond (.NamespacesCreateOrUpdateAuthorizationRule cl.namespaceClient resourceGroupName
        namespaceName authRuleName ⟨some [.Listen, .Manage, .Send]⟩) with
      | none => ⟨[.print ("Creating authorization rule '" ++ authRuleName ++ "' for namespace '"
        ++ namespaceName ++ "'...\n"),
          .call (.NamespacesCreateOrUpdateAuthorizationRule cl.namespaceClient resourceGroupName
        namespaceName authRuleName ⟨some [.Listen, .Manage, .Send]⟩) none], .ok ()⟩
      | some e => ⟨[.print ("Creating authorization rule '" ++ authRuleName ++ "' for namespace '"
        ++ namespaceName ++ "'...\n"),
          .call (.NamespacesCreateOrUpdateAuthorizationRule cl.namespaceClient resourceGroupName
        namespaceName authRuleName ⟨some [.Listen, .Manage, .Send]⟩) (some e),
          .print (failureLine "Authorization rule create failed" e)], .error (.exit 1)⟩ :=
  step_eq w _ _ _

theorem createQueue_eq (w : World) (cl : Clients) :
    createQueue w cl =
      match w.respond (.QueuesCreateOrUpdate cl.queuesClient resourceGroupName namespaceName queueName
        ⟨some location, some true⟩) with
      | none => ⟨[.print ("Creating queue '" ++ queueName ++ "'...\n"),
          .call (.QueuesCreateOrUpdate cl.queuesClient resourceGroupName namespaceName queueName
        ⟨some location, some true⟩) none], .ok ()⟩
      | some e => ⟨[.print ("Creating queue '" ++ queueName ++ "'...\n"),
          .call (.QueuesCreateOrUpdate cl.queuesClient resourceGroupName namespaceName queueName
        ⟨some location, some true⟩) (some e),
          .print (failureLine "Queue create failed" e)], .error (.exit 1)⟩ :=
  step_eq w _ _ _

theorem createTopic_eq (w : World) (cl : Clients) :
    createTopic w cl =
      match w.respond (.TopicsCreateOrUpdate cl.topicsClient resourceGroupName namespaceName topicName
        ⟨some location, some true⟩) with
      | none => ⟨[.print ("Creating topic '" ++ topicName ++ "'...\n"),
          .call (.TopicsCreateOrUpdate cl.topicsClient resourceGroupName namespaceName topicName
        ⟨some location, some true⟩) none], .ok ()⟩
      | some e => ⟨[.print ("Creating topic '" ++ topicName ++ "'...\n"),
          .call (.TopicsCreateOrUpdate cl.topicsClient resourceGroupName namespaceName topicName
        ⟨some location, some true⟩) (some e),
          .print (failureLine "Topic create failed" e)], .error (.exit 1)⟩ :=
  step_eq w _ _ _

theorem createSubscription_eq (w : World) (cl : Clients) :
    createSubscription w cl =
      match w.respond (.SubscriptionsCreateOrUpdate cl.subClient resourceGroupName namespaceName topicName
        subscriptionName ⟨some location⟩) with
      | none => ⟨[.print ("Creating subscription '" ++ subscriptionName ++ "'...\n"),
          .call (.SubscriptionsCreateOrUpdate cl.subClient resourceGroupName namespaceName topicName
        subscriptionName ⟨some location⟩) none], .ok ()⟩
      | some e => ⟨[.print ("Creating subscription '" ++ subscriptionName ++ "'...\n"),
          .call (.SubscriptionsCreateOrUpdate cl.subClient resourceGroupName namespaceName topicName
        subscriptionName ⟨some location⟩) (some e),
          .print (failureLine "Subscription create failed" e)], .error (.exit 1)⟩ :=
  step_eq w _ _ _

theorem deleteResourceGroup_eq (w : World) (cl : Clients) :
    deleteResourceGroup w cl =
      match w.respond (.GroupsDelete cl.groupsClient resourceGroupName) with
      | none => ⟨[.print ("Deleting resource group '" ++ resourceGroupName ++ "'...\n"),
          .call (.GroupsDelete cl.groupsClient resourceGroupName) none], .ok ()⟩
      | some e => ⟨[.print ("Deleting resource group '" ++ resourceGroupName ++ "'...\n"),
          .call (.GroupsDelete cl.groupsClient resourceGroupName) (some e),
          .print (failureLine "Group delete failed" e)], .error (.exit 1)⟩ :=
  step_eq w _ _ _

theorem listKeys_eq (w : World) (cl : Clients) :
    listKeys w cl =
      match (w.ListKeys cl.namespaceClient resourceGroupName namespaceName authRuleName).2 with
      | some e => ⟨[.print ("List keys for '" ++ namespaceName ++ "' namespace...\n"),
          .call (.NamespacesListKeys cl.namespaceClient resourceGroupName namespaceName
            authRuleName) (some e),
          .print (failureLine "List keys failed" e)], .error (.exit 1)⟩
      | none =>
        match (w.ListKeys cl.namespaceClient resourceGroupName namespaceName authRuleName).1.KeyName with
        | none => ⟨[.print ("List keys for '" ++ namespaceName ++ "' namespace...\n"),
          .call (.NamespacesListKeys cl.namespaceClient resourceGroupName namespaceName
            authRuleName) none],
          .error .nilDereference⟩
        | some k =>
        match (w.ListKeys cl.namespaceClient resourceGroupName namespaceName authRuleName).1.PrimaryKey with
        | none => ⟨[.print ("List keys for '" ++ namespaceName ++ "' namespace...\n"),
          .call (.NamespacesListKeys cl.namespaceClient resourceGroupName namespaceName
            authRuleName) none, .print ("\tKey name: " ++ k ++ "\n")],
          .error .nilDereference⟩
        | some p =>
        match (w.ListKeys cl.namespaceClient resourceGroupName namespaceName authRuleName).1.SecondaryKey with
        | none => ⟨[.print ("List keys for '" ++ namespaceName ++ "' namespace...\n"),
          .call (.NamespacesListKeys cl.namespaceClient resourceGroupName namespaceName
            authRuleName) none, .print ("\tKey name: " ++ k ++ "\n"), .print ("\tPrimary key: " ++ p ++ "\n")],
          .error .nilDereference⟩
        | some s =>
        match (w.ListKeys cl.namespaceClient resourceGroupName namespaceName authRuleName).1.PrimaryConnectionString with
        | none => ⟨[.print ("List keys for '" ++ namespaceName ++ "' namespace...\n"),
          .call (.NamespacesListKeys cl.namespaceClient resourceGroupName namespaceName
            authRuleName) none, .print ("\tKey name: " ++ k ++ "\n"), .print ("\tPrimary key: " ++ p ++ "\n"), .print ("\tSecondary key: " ++ s ++ "\n")],
          .error .nilDereference⟩
        | some pc =>
        match (w.ListKeys cl.namespaceClient resourceGroupName namespaceName authRuleName).1.SecondaryConnectionString with
        | none => ⟨[.print ("List keys for '" ++ namespaceName ++ "' namespace...\n"),
          .call (.NamespacesListKeys cl.namespaceClient resourceGroupName namespaceName
            authRuleName) none, .print ("\tKey name: " ++ k ++ "\n"), .print ("\tPrimary key: " ++ p ++ "\n"), .print ("\tSecondary key: " ++ s ++ "\n"), .print ("\tPrimary connection string: " ++ pc ++ "\n")],
          .error .nilDereference⟩
        | some sc =>
          ⟨[.print ("List keys for '" ++ namespaceName ++ "' namespace...\n"),
          .call (.NamespacesListKeys cl.namespaceClient resourceGroupName namespaceName
            authRuleName) none, .print ("\tKey name: " ++ k ++ "\n"), .print ("\tPrimary key: " ++ p ++ "\n"), .print ("\tSecondary key: " ++ s ++ "\n"), .print ("\tPrimary connection string: " ++ pc ++ "\n"), .print ("\tSecondary connection string: " ++ sc ++ "\n")],
          .ok ()⟩ := by
  unfold listKeys
  rcases h : w.ListKeys cl.namespaceClient resourceGroupName namespaceName authRuleName with
    ⟨⟨k, p, s, pc, sc⟩, _ | e⟩
  · cases k <;> cases p <;> cases s <;> cases pc <;> cases sc <;>
      simp [Printf, emit, deref, onErrorFail_none, bind_ok, bind_error]
  · simp [Printf, emit, onErrorFail_some, bind_ok, bind_error]

/-! ## Reading the environment -/

/-- Claim C8: `getEnvVarOrExit n` returns a value `v`, writing nothing and without
ending the process, exactly when the variable is defined with the non-empty value
`v`; it writes `Missing environment variable <n>` and ends the process with
status 1, returning nothing, exactly when the variable is absent or empty; and one
of the two always happens. -/
theorem getEnvVarOrExit_returns_iff_nonempty (w : World) (n : String) :
    (∀ v, getEnvVarOrExit w n = ⟨[], .ok v⟩ ↔ (w.environ n = some v ∧ v ≠ "")) ∧
    (getEnvVarOrExit w n
        = ⟨[.print ("Missing environment variable " ++ n ++ "\n")], .error (.exit 1)⟩
      ↔ (w.environ n = none ∨ w.environ n = some "")) ∧
    ((∃ v, getEnvVarOrExit w n = ⟨[], .ok v⟩) ∨
      getEnvVarOrExit w n
        = ⟨[.print ("Missing environment variable " ++ n ++ "\n")], .error (.exit 1)⟩) := by
  rw [getEnvVarOrExit_eq]
  unfold Getenv missingLine
  cases h : w.environ n with
  | none => simp
  | some x =>
    by_cases hx : x = ""
    · simp [hx]
    · simp [hx]

/-! ## The eight steps -/

/-- The shape of a step that is a progress line, one call and `onErrorFail`. -/
theorem simple_step_shape (w : World) (p m : String) (c : RemoteCall) (r : Run Unit)
    (hr : r = match w.respond c with
      | none => ⟨[.print p, .call c none], .ok ()⟩
      | some e => ⟨[.print p, .call c (some e), .print (failureLine m e)], .error (.exit 1)⟩) :
    ∃ rest : List Event,
      r.trace = .print p :: .call c (w.respond c) :: rest ∧
      (∀ ev ∈ rest, ev.isCall = false) ∧
      (∀ e, w.respond c = some e →
        rest = [.print (m ++ ": " ++ e ++ "\n")] ∧ r.result = .error (.exit 1)) := by
  subst hr
  cases h : w.respond c with
  | none => exact ⟨[], rfl, by simp, by simp⟩
  | some e => exact ⟨[.print (failureLine m e)], rfl, by simp [Event.isCall], by simp [failureLine]⟩

/-- The shape of `listKeys`: progress line, the call, then only writes. -/
theorem listKeys_shape (w : World) (cl : Clients) :
    ∃ rest : List Event,
      (listKeys w cl).trace =
        .print ("List keys for '" ++ namespaceName ++ "' namespace...\n") ::
        .call (.NamespacesListKeys cl.namespaceClient resourceGroupName namespaceName authRuleName)
          (w.ListKeys cl.namespaceClient resourceGroupName namespaceName authRuleName).2 :: rest ∧
      (∀ ev ∈ rest, ev.isCall = false) ∧
      (∀ e, (w.ListKeys cl.namespaceClient resourceGroupName namespaceName authRuleName).2 = some e →
        rest = [.print ("List keys failed" ++ ": " ++ e ++ "\n")] ∧
        (listKeys w cl).result = .error (.exit 1)) := by
  rw [listKeys_eq]
  rcases h : w.ListKeys cl.namespaceClient resourceGroupName namespaceName authRuleName with
    ⟨⟨k, p, s, pc, sc⟩, _ | e⟩
  · cases k <;> cases p <;> cases s <;> cases pc <;> cases sc <;>
      exact ⟨_, rfl, by simp [Event.isCall], by simp⟩
  · exact ⟨_, rfl, by simp [Event.isCall], by simp [failureLine]⟩

/-- Claim C9, as the code has it: each of the eight step functions, whatever its
call returns, first writes its progress line and only then issues its one client
call; nothing after that is a client call, and when the call returns an error the
rest of the step is the failure line and exit status 1. For the seven steps other
than keys-list the progress line contains the name the call acts on, taken from
the call's own arguments. For keys-list the line contains the namespace name the
call is given and does not contain the authorization rule name the call is given,
the rule whose keys are listed. -/
theorem step_announces_before_call (s : Step) (w : World) (cl : Clients) :
    ∃ (line : String) (c : RemoteCall) (rest : List Event),
      (s.run w cl).trace = .print line :: .call c (w.answer c) :: rest ∧
      c.step = s ∧
      (s ≠ .keysList → mentions line c.target) ∧
      (s = .keysList → ∃ (client : Client) (rg ns rule : String),
        c = .NamespacesListKeys client rg ns rule ∧ mentions line ns ∧ ¬ mentions line rule) ∧
      (∀ ev ∈ rest, ev.isCall = false) ∧
      (∀ e, w.answer c = some e →
        rest = [.print (s.failureMessage ++ ": " ++ e ++ "\n")] ∧
        (s.run w cl).result = .error (.exit 1)) := by
  cases s
  case groupCreate =>
    obtain ⟨rest, h1, h2, h3⟩ := simple_step_shape w _ _ _ _ (createResourceGroup_eq w cl)
    refine ⟨_, _, rest, h1, rfl, fun _ => ?_, fun h => ?_, h2, h3⟩
    · simp only [RemoteCall.target]
      decide
    · exact absurd h (by decide)
  case namespaceCreate =>
    obtain ⟨rest, h1, h2, h3⟩ := simple_step_shape w _ _ _ _ (createNamespace_eq w cl)
    refine ⟨_, _, rest, h1, rfl, fun _ => ?_, fun h => ?_, h2, h3⟩
    · simp only [RemoteCall.target]
      decide
    · exact absurd h (by decide)
  case authruleCreate =>
    obtain ⟨rest, h1, h2, h3⟩ := simple_step_shape w _ _ _ _ (createAuthRule_eq w cl)
    refine ⟨_, _, rest, h1, rfl, fun _ => ?_, fun h => ?_, h2, h3⟩
    · simp only [RemoteCall.target]
      decide
    · exact absurd h (by decide)
  case keysList =>
    obtain ⟨rest, h1, h2, h3⟩ := listKeys_shape w cl
    refine ⟨_, _, rest, h1, rfl, fun h => absurd rfl h,
      fun _ => ⟨_, _, _, _, rfl, ?_, ?_⟩, h2, h3⟩
    · decide
    · decide
  case queueCreate =>
    obtain ⟨rest, h1, h2, h3⟩ := simple_step_shape w _ _ _ _ (createQueue_eq w cl)
    refine ⟨_, _, rest, h1, rfl, fun _ => ?_, fun h => ?_, h2, h3⟩
    · simp only [RemoteCall.target]
      decide
    · exact absurd h (by decide)
  case topicCreate =>
    obtain ⟨rest, h1, h2, h3⟩ := simple_step_shape w _ _ _ _ (createTopic_eq w cl)
    refine ⟨_, _, rest, h1, rfl, fun _ => ?_, fun h => ?_, h2, h3⟩
    · simp only [RemoteCall.target]
      decide
    · exact absurd h (by decide)
  case subscriptionCreate =>
    obtain ⟨rest, h1, h2, h3⟩ := simple_step_shape w _ _ _ _ (createSubscription_eq w cl)
    refine ⟨_, _, rest, h1, rfl, fun _ => ?_, fun h => ?_, h2, h3⟩
    · simp only [RemoteCall.target]
      decide
    · exact absurd h (by decide)
  case groupDelete =>
    obtain ⟨rest, h1, h2, h3⟩ := simple_step_shape w _ _ _ _ (deleteResourceGroup_eq w cl)
    refine ⟨_, _, rest, h1, rfl, fun _ => ?_, fun h => ?_, h2, h3⟩
    · simp only [RemoteCall.target]
      decide
    · exact absurd h (by decide)

/-- Claim C9 fails as stated at keys-list: the call `listKeys` issues acts on the
authorization rule `authrule`, and the progress line written before it names the
namespace only. -/
theorem listKeys_line_omits_rule :
    (listKeys stubWorld stubClients).trace.take 2 =
      [.print "List keys for 'golangrocksonazure' namespace...\n",
       .call (.NamespacesListKeys ⟨"sub-1", some ⟨"client-1"⟩⟩ "azure-sample"
         "golangrocksonazure" "authrule") none] ∧
    (RemoteCall.NamespacesListKeys ⟨"sub-1", some ⟨"client-1"⟩⟩ "azure-sample"
      "golangrocksonazure" "authrule").target = "authrule" ∧
    mentions "List keys for 'golangrocksonazure' namespace...\n" "golangrocksonazure" ∧
    ¬ mentions "List keys for 'golangrocksonazure' namespace...\n" "authrule" := by
  decide

/-! ## The shape of every run -/

/-- In every world the client calls of the process, read as steps with their
success, form one of the lists of `scriptRuns`. -/
theorem callResults_mem (w : World) : callResults (process w).trace ∈ scriptRuns := by
  generalize hr : process w = r
  unfold process init main onErrorFail deref at hr
  simp only [getEnvVarOrExit_eq, createResourceGroup_eq, createNamespace_eq, createAuthRule_eq,
    listKeys_eq, createQueue_eq, createTopic_eq, createSubscription_eq, deleteResourceGroup_eq,
    Printf, emit, osExit] at hr
  repeat (any_goals (split at hr <;>
    try simp only [bind_ok, bind_error, pure_eq, List.append_nil, List.cons_append,
      List.nil_append] at hr))
  all_goals subst hr
  all_goals simp [callResults, calls, RemoteCall.step]
  all_goals decide

/-- When the last client call of the process returned an error, the process ended
with status 1 right after writing that step's failure line. -/
theorem last_call_failed (w : World) (c : RemoteCall) (e : String)
    (h : (calls (process w).trace).getLast? = some (c, some e)) :
    (process w).status = .exited 1 ∧
    (outputs (process w).trace).getLast? = some (c.step.failureMessage ++ ": " ++ e ++ "\n") := by
  generalize hr : process w = r at h ⊢
  revert h
  unfold process init main onErrorFail deref at hr
  simp only [getEnvVarOrExit_eq, createResourceGroup_eq, createNamespace_eq, createAuthRule_eq,
    listKeys_eq, createQueue_eq, createTopic_eq, createSubscription_eq, deleteResourceGroup_eq,
    Printf, emit, osExit] at hr
  repeat (any_goals (split at hr <;>
    try simp only [bind_ok, bind_error, pure_eq, List.append_nil, List.cons_append,
      List.nil_append] at hr))
  all_goals subst hr
  all_goals simp only [calls, List.getLast?_cons_cons, List.getLast?_singleton,
    List.getLast?_nil, Option.some.injEq, Prod.mk.injEq, reduceCtorEq, and_false,
    false_implies, imp_self]
  all_goals rintro ⟨rfl, rfl⟩
  all_goals simp [outputs, Run.status, RemoteCall.step, Step.failureMessage, failureLine]

/-- In a list of `scriptRuns`, a failed call is the last one, and the steps up to
it are the first steps of the fixed sequence. -/
theorem scriptRuns_failure_last :
    ∀ L ∈ scriptRuns, ∀ k < 9, 1 ≤ k → (L[k - 1]?).map Prod.snd = some false →
      L.length = k ∧ L.map Prod.fst = fixedSequence.take k ∧
      fixedSequence[k - 1]? = (L[k - 1]?).map Prod.fst := by
  decide

/-- In a list of `scriptRuns` the steps follow the fixed sequence without gap or
repetition, and a child's create comes after its parent's successful create. -/
theorem scriptRuns_ordered :
    ∀ L ∈ scriptRuns,
      L.map Prod.fst <+: fixedSequence ∧ (L.map Prod.fst).Nodup ∧
      (∀ i < L.length,
        ((L[i]?).map Prod.fst = some Step.queueCreate ∨
          (L[i]?).map Prod.fst = some Step.topicCreate) →
        ∃ j < i, L[j]? = some (Step.namespaceCreate, true)) ∧
      (∀ i < L.length, (L[i]?).map Prod.fst = some Step.subscriptionCreate →
        ∃ j < i, L[j]? = some (Step.topicCreate, true)) := by
  decide

theorem callResults_getElem? (t : List Event) (i : Nat) :
    (callResults t)[i]? = ((calls t)[i]?).map fun c => (c.1.step, c.2.isNone) := by
  simp [callResults]

/-! ## Failure of a step -/

/-- Claim C2: for every k from 1 to 8, in every run in which start-up succeeds,
the first k-1 client calls succeed and the k-th call `c` returns an error `e`: the
process ends with exit status 1, `c` is the k-th step of the fixed sequence, the
last text written is that step's failure message followed by `: e`, exactly k
client calls have been issued, they are the first k steps of the fixed sequence,
and no step after the k-th (the resource-group delete included) is among them. -/
theorem step_failure_halts (w : World) (cl : Clients) (k : Nat) (c : RemoteCall) (e : String)
    (hk : 1 ≤ k ∧ k ≤ 8)
    (hstart : (init w).result = .ok cl)
    (hprev : ∀ i, i < k - 1 → ∃ c', (calls (process w).trace)[i]? = some (c', none))
    (hfail : (calls (process w).trace)[k - 1]? = some (c, some e)) :
    (process w).status = .exited 1 ∧
    fixedSequence[k - 1]? = some c.step ∧
    (outputs (process w).trace).getLast? = some (c.step.failureMessage ++ ": " ++ e ++ "\n") ∧
    (calls (process w).trace).length = k ∧
    steps (process w).trace = fixedSequence.take k ∧
    (∀ s ∈ fixedSequence.drop k, s ∉ steps (process w).trace) := by
  have hres : (callResults (process w).trace)[k - 1]? = some (c.step, false) := by
    rw [callResults_getElem?, hfail]; rfl
  obtain ⟨hlen, hsteps, hkth⟩ :=
    scriptRuns_failure_last _ (callResults_mem w) k (by omega) hk.1 (by rw [hres]; rfl)
  have hlen' : (calls (process w).trace).length = k := by
    simpa [callResults] using hlen
  have hlast : (calls (process w).trace).getLast? = some (c, some e) := by
    rw [List.getLast?_eq_getElem?, hlen', hfail]
  obtain ⟨hstatus, hout⟩ := last_call_failed w c e hlast
  have hsteps' : steps (process w).trace = fixedSequence.take k := by
    rw [← hsteps]; simp [steps, callResults]
  refine ⟨hstatus, ?_, hout, hlen', hsteps', ?_⟩
  · rw [hkth, hres]; rfl
  · intro s hs hmem
    rw [hsteps'] at hmem
    exact List.disjoint_take_drop (by decide) (le_refl k) hmem hs

/-- A run of claim C2 with k = 2: the namespace create call returns `conflict`. -/
theorem step_failure_halts_witness :
    (process namespaceConflictWorld).status = .exited 1 ∧
    (outputs (process namespaceConflictWorld).trace).getLast?
      = some "Namespace create failed: conflict\n" ∧
    steps (process namespaceConflictWorld).trace = [.groupCreate, .namespaceCreate] :=
  have h := step_failure_halts namespaceConflictWorld stubClients 2
    (.NamespacesCreateOrUpdate ⟨"sub-1", some ⟨"client-1"⟩⟩ "azure-sample" "golangrocksonazure"
      ⟨some "westus", some ⟨.SkuTierStandard, .Standard⟩⟩)
    "conflict" (by decide) rfl
    (by
      intro i hi
      obtain rfl : i = 0 := by omega
      exact ⟨_, rfl⟩)
    rfl
  ⟨h.1, h.2.2.1, h.2.2.2.2.1⟩

/-! ## Order of the calls -/

/-- Claim C5: in every run, ended normally or not, the steps of the client calls
issued are an initial segment of the fixed sequence, with no step repeated; a
queue-create or topic-create call comes after a namespace-create call that
returned no error, and a subscription-create call after a topic-create call that
returned no error. -/
theorem calls_follow_fixed_sequence (w : World) :
    steps (process w).trace <+: fixedSequence ∧
    (steps (process w).trace).Nodup ∧
    (∀ (i : Nat) (c : RemoteCall) (err : Option String),
      (calls (process w).trace)[i]? = some (c, err) →
      (c.step = .queueCreate ∨ c.step = .topicCreate) →
      ∃ (j : Nat) (c' : RemoteCall), j < i ∧
        (calls (process w).trace)[j]? = some (c', none) ∧ c'.step = .namespaceCreate) ∧
    (∀ (i : Nat) (c : RemoteCall) (err : Option String),
      (calls (process w).trace)[i]? = some (c, err) →
      c.step = .subscriptionCreate →
      ∃ (j : Nat) (c' : RemoteCall), j < i ∧
        (calls (process w).trace)[j]? = some (c', none) ∧ c'.step = .topicCreate) := by
  obtain ⟨h1, h2, h3, h4⟩ := scriptRuns_ordered _ (callResults_mem w)
  have hmap : (callResults (process w).trace).map Prod.fst = steps (process w).trace := by
    simp [steps, callResults]
  have back : ∀ (j : Nat) (s : Step), (callResults (process w).trace)[j]? = some (s, true) →
      ∃ c' : RemoteCall, (calls (process w).trace)[j]? = some (c', none) ∧ c'.step = s := by
    intro j s hj
    rw [callResults_getElem?] at hj
    cases hc : (calls (process w).trace)[j]? with
    | none => simp [hc] at hj
    | some x =>
      obtain ⟨c', err'⟩ := x
      simp [hc] at hj
      cases err' with
      | none => exact ⟨c', rfl, hj.1⟩
      | some _ => simp at hj
  have fwd : ∀ (i : Nat) (c : RemoteCall) (err : Option String),
      (calls (process w).trace)[i]? = some (c, err) →
      i < (callResults (process w).trace).length ∧
      ((callResults (process w).trace)[i]?).map Prod.fst = some c.step := by
    intro i c err hi
    refine ⟨?_, ?_⟩
    · have := (List.getElem?_eq_some.1 hi).1
      simpa [callResults] using this
    · rw [callResults_getElem?, hi]; rfl
  rw [hmap] at h1 h2
  refine ⟨h1, h2, ?_, ?_⟩
  · intro i c err hi hc
    obtain ⟨hlt, hfst⟩ := fwd i c err hi
    obtain ⟨j, hj, hjv⟩ := h3 i hlt (by rw [hfst]; rcases hc with h | h <;> simp [h])
    obtain ⟨c', hc1, hc2⟩ := back j _ hjv
    exact ⟨j, c', hj, hc1, hc2⟩
  · intro i c err hi hc
    obtain ⟨hlt, hfst⟩ := fwd i c err hi
    obtain ⟨j, hj, hjv⟩ := h4 i hlt (by rw [hfst, hc])
    obtain ⟨c', hc1, hc2⟩ := back j _ hjv
    exact ⟨j, c', hj, hc1, hc2⟩

/-! ## Addressing of the calls -/

/-- Claim C10: in a run that ends with exit status 0 the client calls are the eight
calls of the script, and they are addressed consistently: one resource group `rg`
is named by group-create, by every call in between and by group-delete; one
namespace `ns` by namespace-create and the five calls after it; one rule by
authrule-create and keys-list; one topic by topic-create and subscription-create. -/
theorem successful_run_addresses (w : World) (h : (process w).status = .exited 0) :
    ∃ (gc nc qc tc sc : Client) (rg ns rule queue topic sub : String)
      (p1 : Group) (p2 : NamespaceCreateOrUpdateParameters)
      (p3 : SharedAccessAuthorizationRuleCreateOrUpdateParameters)
      (p5 : QueueCreateOrUpdateParameters) (p6 : TopicCreateOrUpdateParameters)
      (p7 : SubscriptionCreateOrUpdateParameters),
      (calls (process w).trace).map Prod.fst =
        [.GroupsCreateOrUpdate gc rg p1,
         .NamespacesCreateOrUpdate nc rg ns p2,
         .NamespacesCreateOrUpdateAuthorizationRule nc rg ns rule p3,
         .NamespacesListKeys nc rg ns rule,
         .QueuesCreateOrUpdate qc rg ns queue p5,
         .TopicsCreateOrUpdate tc rg ns topic p6,
         .SubscriptionsCreateOrUpdate sc rg ns topic sub p7,
         .GroupsDelete gc rg] := by
  generalize hr : process w = r at h ⊢
  revert h
  unfold process init main onErrorFail deref at hr
  simp only [getEnvVarOrExit_eq, createResourceGroup_eq, createNamespace_eq, createAuthRule_eq,
    listKeys_eq, createQueue_eq, createTopic_eq, createSubscription_eq, deleteResourceGroup_eq,
    Printf, emit, osExit] at hr
  repeat (any_goals (split at hr <;>
    try simp only [bind_ok, bind_error, pure_eq, List.append_nil, List.cons_append,
      List.nil_append] at hr))
  all_goals subst hr
  all_goals intro hs
  all_goals first
    | (simp [Run.status] at hs; done)
    | (simp only [calls, List.map_cons, List.map_nil]
       exact ⟨_, _, _, _, _, _, _, _, _, _, _, _, _, _, _, _, _, rfl⟩)

/-- A run of claim C10: every collaborator of `stubWorld` succeeds. -/
theorem successful_run_addresses_witness :
    (process stubWorld).status = .exited 0 ∧
    ∃ (gc nc qc tc sc : Client) (rg ns rule queue topic sub : String)
      (p1 : Group) (p2 : NamespaceCreateOrUpdateParameters)
      (p3 : SharedAccessAuthorizationRuleCreateOrUpdateParameters)
      (p5 : QueueCreateOrUpdateParameters) (p6 : TopicCreateOrUpdateParameters)
      (p7 : SubscriptionCreateOrUpdateParameters),
      (calls (process stubWorld).trace).map Prod.fst =
        [.GroupsCreateOrUpdate gc rg p1,
         .NamespacesCreateOrUpdate nc rg ns p2,
         .NamespacesCreateOrUpdateAuthorizationRule nc rg ns rule p3,
         .NamespacesListKeys nc rg ns rule,
         .QueuesCreateOrUpdate qc rg ns queue p5,
         .TopicsCreateOrUpdate tc rg ns topic p6,
         .SubscriptionsCreateOrUpdate sc rg ns topic sub p7,
         .GroupsDelete gc rg] :=
  ⟨rfl, successful_run_addresses stubWorld rfl⟩

/-! ## Token acquisition -/

/-- Claim C4: in every run in which the four variables are set and a
token-acquisition step (`OAuthConfigForTenant` or `NewServicePrincipalToken`)
returns an error `e`, the process ends with exit status 1, no client call is
issued, and the output is the one line made of that step's failure message and
`e`. -/
theorem token_failure_halts (w : World) (e : String)
    (hset : ∀ v ∈ requiredVariables, (w.environ v).isSome)
    (hfail : (∃ t, Event.OAuthConfigForTenant t (some e) ∈ (process w).trace) ∨
      (∃ cfg id secret res,
        Event.NewServicePrincipalToken cfg id secret res (some e) ∈ (process w).trace)) :
    (process w).status = .exited 1 ∧
    calls (process w).trace = [] ∧
    (outputs (process w).trace = ["OAuthConfigForTenant failed" ++ ": " ++ e ++ "\n"] ∨
      outputs (process w).trace = ["NewServicePrincipalToken failed" ++ ": " ++ e ++ "\n"]) := by
  generalize hr : process w = r at hfail ⊢
  revert hfail
  unfold process init main onErrorFail deref at hr
  simp only [getEnvVarOrExit_eq, createResourceGroup_eq, createNamespace_eq, createAuthRule_eq,
    listKeys_eq, createQueue_eq, createTopic_eq, createSubscription_eq, deleteResourceGroup_eq,
    Printf, emit, osExit] at hr
  repeat (any_goals (split at hr <;>
    try simp only [bind_ok, bind_error, pure_eq, List.append_nil, List.cons_append,
      List.nil_append] at hr))
  all_goals subst hr
  all_goals simp_all [calls, outputs, Run.status, failureLine]

/-- A run of claim C4: `NewServicePrincipalToken` returns `invalid_client`. -/
theorem token_failure_halts_witness :
    (process invalidCredentialsWorld).status = .exited 1 ∧
    calls (process invalidCredentialsWorld).trace = [] ∧
    outputs (process invalidCredentialsWorld).trace
      = ["NewServicePrincipalToken failed: invalid_client\n"] :=
  have h := token_failure_halts invalidCredentialsWorld "invalid_client" (by decide)
    (Or.inr ⟨⟨"tenant-1"⟩, "client-1", "secret-1", "https://management.azure.com/", by decide⟩)
  ⟨h.1, h.2.1, rfl⟩


/-! ## Missing variables -/

/-- Claim C1, as the code has it: for each of the four required variables and every
environment in which it is unset, `init` ends with exit status 1 and invokes
neither `NewServicePrincipalToken` nor a client call. `OAuthConfigForTenant` is
invoked exactly when `AZURE_SUBSCRIPTION_ID` and `AZURE_TENANT_ID` are both
non-empty. The output is the one line naming the unset variable whenever every
variable read before it is non-empty and, when the variable is `AZURE_CLIENT_ID`
or `AZURE_CLIENT_SECRET`, `OAuthConfigForTenant` returns no error. -/
theorem missing_variable_exits (w : World) (v : String)
    (hv : v ∈ requiredVariables) (hunset : w.environ v = none) :
    (init w).status = .exited 1 ∧
    (∀ ev ∈ (init w).trace, ev.isNewServicePrincipalToken = false ∧ ev.isCall = false) ∧
    ((∃ ev ∈ (init w).trace, ev.isOAuthConfigForTenant = true) ↔
      (Getenv w "AZURE_SUBSCRIPTION_ID" ≠ "" ∧ Getenv w "AZURE_TENANT_ID" ≠ "")) ∧
    ((∀ u ∈ requiredVariables.takeWhile (fun u => decide (u ≠ v)), Getenv w u ≠ "") →
      ((v = "AZURE_CLIENT_ID" ∨ v = "AZURE_CLIENT_SECRET") →
        (w.OAuthConfigForTenant (Getenv w "AZURE_TENANT_ID")).2 = none) →
      outputs (init w).trace = ["Missing environment variable " ++ v ++ "\n"]) := by
  have hg : Getenv w v = "" := by simp [Getenv, hunset]
  generalize hr : init w = r
  unfold init onErrorFail deref at hr
  simp only [getEnvVarOrExit_eq, Printf, emit, osExit] at hr
  repeat (any_goals (split at hr <;>
    try simp only [bind_ok, bind_error, pure_eq, List.append_nil, List.cons_append,
      List.nil_append] at hr))
  all_goals subst hr
  all_goals simp only [requiredVariables, List.mem_cons, List.mem_singleton, List.not_mem_nil,
    or_false] at hv
  all_goals rcases hv with rfl | rfl | rfl | rfl
  all_goals simp_all [outputs, Run.status, missingLine, failureLine, requiredVariables,
    Event.isCall, Event.isNewServicePrincipalToken, Event.isOAuthConfigForTenant]

/-- A run of claim C1: `AZURE_CLIENT_ID` is unset and the variables read before it
are set. -/
theorem missing_variable_exits_witness :
    "AZURE_CLIENT_ID" ∈ requiredVariables ∧
    noClientIDWorld.environ "AZURE_CLIENT_ID" = none ∧
    (init noClientIDWorld).status = .exited 1 ∧
    outputs (init noClientIDWorld).trace = ["Missing environment variable AZURE_CLIENT_ID\n"] :=
  have h := missing_variable_exits noClientIDWorld "AZURE_CLIENT_ID" (by decide) rfl
  ⟨by decide, rfl, h.1, h.2.2.2 (by decide) (fun _ => rfl)⟩

/-- Claim C1 fails as stated. With `AZURE_CLIENT_ID` unset and the other three
variables set, `init` invokes `OAuthConfigForTenant` before it reports the missing
variable. With `AZURE_TENANT_ID` and `AZURE_SUBSCRIPTION_ID` both unset, the only
line written names `AZURE_SUBSCRIPTION_ID`, not `AZURE_TENANT_ID`. -/
theorem token_step_before_missing_client_id :
    (noClientIDWorld.environ "AZURE_CLIENT_ID" = none ∧
      (init noClientIDWorld).trace =
        [.OAuthConfigForTenant "tenant-1" none,
         .print "Missing environment variable AZURE_CLIENT_ID\n"]) ∧
    (noTenantNoSubscriptionWorld.environ "AZURE_TENANT_ID" = none ∧
      (init noTenantNoSubscriptionWorld).trace =
        [.print "Missing environment variable AZURE_SUBSCRIPTION_ID\n"]) := by
  decide

/-! ## Absent key fields -/

/-- When the keys-list response carries its five fields, `listKeys` writes its
progress line, issues the call and writes the five values, one labelled line
each, in the order of the source. -/
theorem listKeys_prints_all_fields (w : World) (cl : Clients) (k p s pc sc : String)
    (h : w.ListKeys cl.namespaceClient resourceGroupName namespaceName authRuleName
      = (⟨some k, some p, some s, some pc, some sc⟩, none)) :
    listKeys w cl =
      ⟨[.print "List keys for 'golangrocksonazure' namespace...\n",
        .call (.NamespacesListKeys cl.namespaceClient resourceGroupName namespaceName
          authRuleName) none,
        .print ("\tKey name: " ++ k ++ "\n"),
        .print ("\tPrimary key: " ++ p ++ "\n"),
        .print ("\tSecondary key: " ++ s ++ "\n"),
        .print ("\tPrimary connection string: " ++ pc ++ "\n"),
        .print ("\tSecondary connection string: " ++ sc ++ "\n")], .ok ()⟩ := by
  rw [listKeys_eq, h]
  simp [namespaceName]

/-- In a world where every variable is non-empty, token acquisition succeeds, every
client call returns no error and the keys-list response carries its five fields,
the process issues the eight calls in the fixed order, ends its trace with the
prompt, the read of standard input, the progress line and the call of the
resource-group deletion, and exits with status 0. -/
theorem full_run_when_keys_present (w : World)
    (henv : ∀ v ∈ requiredVariables, Getenv w v ≠ "")
    (hoauth : ∀ t, (w.OAuthConfigForTenant t).1 ≠ none ∧ (w.OAuthConfigForTenant t).2 = none)
    (htoken : ∀ cfg a b c, (w.NewServicePrincipalToken cfg a b c).2 = none)
    (hcalls : ∀ c, w.respond c = none)
    (hkeys : ∀ cl rg ns rule, (w.ListKeys cl rg ns rule).2 = none ∧
      (w.ListKeys cl rg ns rule).1.KeyName ≠ none ∧
      (w.ListKeys cl rg ns rule).1.PrimaryKey ≠ none ∧
      (w.ListKeys cl rg ns rule).1.SecondaryKey ≠ none ∧
      (w.ListKeys cl rg ns rule).1.PrimaryConnectionString ≠ none ∧
      (w.ListKeys cl rg ns rule).1.SecondaryConnectionString ≠ none) :
    (process w).status = .exited 0 ∧
    callResults (process w).trace = okRun 8 ∧
    ∃ c, c.step = .groupDelete ∧
      (process w).trace.drop ((process w).trace.length - 4) =
        [.print promptText, .Scanln w.stdin,
         .print "Deleting resource group 'azure-sample'...\n", .call c none] := by
  simp only [requiredVariables, List.mem_cons, List.mem_singleton, List.not_mem_nil, or_false,
    forall_eq_or_imp, forall_eq] at henv
  obtain ⟨he1, he2, he3, he4⟩ := henv
  generalize hr : process w = r
  unfold process init main onErrorFail deref at hr
  simp only [getEnvVarOrExit_eq, createResourceGroup_eq, createNamespace_eq, createAuthRule_eq,
    listKeys_eq, createQueue_eq, createTopic_eq, createSubscription_eq, deleteResourceGroup_eq,
    Printf, emit, osExit] at hr
  repeat (any_goals (split at hr <;>
    try simp only [bind_ok, bind_error, pure_eq, List.append_nil, List.cons_append,
      List.nil_append] at hr))
  all_goals subst hr
  all_goals first
    | (exfalso; simp_all; done)
    | (refine ⟨rfl, ?_, ?_⟩
       · simp [callResults, calls, RemoteCall.step]
         decide
       · simp only [List.length_cons, List.length_nil, promptText]
         refine ⟨_, ?_, rfl⟩
         rfl)

/-- The hypotheses of `full_run_when_keys_present` hold in `stubWorld`. -/
theorem full_run_in_stubWorld :
    (process stubWorld).status = .exited 0 ∧
    callResults (process stubWorld).trace = okRun 8 :=
  have h := full_run_when_keys_present stubWorld (by decide)
    (fun _ => ⟨by simp [stubWorld], rfl⟩) (fun _ _ _ _ => rfl) (fun _ => rfl)
    (fun _ _ _ _ => by simp [stubWorld, fullKeys])
  ⟨h.1, h.2.1⟩

/-- In every world the process ends with exit status 0, with exit status 1, or
with a fault. -/
theorem status_cases (w : World) :
    (process w).status = .exited 0 ∨ (process w).status = .exited 1 ∨
      (process w).status = .faulted := by
  generalize hr : process w = r
  unfold process init main onErrorFail deref at hr
  simp only [getEnvVarOrExit_eq, createResourceGroup_eq, createNamespace_eq, createAuthRule_eq,
    listKeys_eq, createQueue_eq, createTopic_eq, createSubscription_eq, deleteResourceGroup_eq,
    Printf, emit, osExit] at hr
  repeat (any_goals (split at hr <;>
    try simp only [bind_ok, bind_error, pure_eq, List.append_nil, List.cons_append,
      List.nil_append] at hr))
  all_goals subst hr
  all_goals simp [Run.status]

/-- Claim C3 at its failing input, the keys stub of the specification: every
variable is set, token acquisition succeeds and each of the four calls issued
returns no error, yet the process faults after keys-list and issues no further
call. -/
theorem three_keys_stub_faults :
    requiredVariables.all (fun v => (threeKeysWorld.environ v).isSome) = true ∧
    callResults (process threeKeysWorld).trace =
      [(.groupCreate, true), (.namespaceCreate, true), (.authruleCreate, true),
       (.keysList, true)] ∧
    (process threeKeysWorld).status = .faulted := by
  decide

/-- Claim C6 at its failing input: the keys-list call returns no error and a
response without key name; `listKeys` writes its progress line and faults, so
that the returned primary key, secondary key and connection strings are never
written. -/
theorem listKeys_without_key_name_faults :
    outputs (listKeys noKeyNameWorld stubClients).trace
      = ["List keys for 'golangrocksonazure' namespace...\n"] ∧
    calls (listKeys noKeyNameWorld stubClients).trace
      = [(.NamespacesListKeys ⟨"sub-1", some ⟨"client-1"⟩⟩ "azure-sample" "golangrocksonazure"
          "authrule", none)] ∧
    (listKeys noKeyNameWorld stubClients).status = .faulted := by
  decide

/-- Claim C7 at its failing input: no variable is missing and no token-acquisition
or client call returns an error, and the process ends neither with status 0 nor
with status 1 but with a fault, at the first key field `listKeys` reads. -/
theorem absent_keys_fault :
    requiredVariables.all (fun v => (absentKeysWorld.environ v).isSome) = true ∧
    (process absentKeysWorld).trace.all
      (fun ev => match ev with
        | .OAuthConfigForTenant _ err => err.isNone
        | .NewServicePrincipalToken _ _ _ _ err => err.isNone
        | .call _ err => err.isNone
        | _ => true) = true ∧
    (process absentKeysWorld).status = .faulted ∧
    (process absentKeysWorld).status ≠ .exited 0 ∧
    (process absentKeysWorld).status ≠ .exited 1 := by
  decide


end ServiceBusSample
